import Mathlib

/-!
Verification of the descriptive-statement execution engine of
`pkg/sql/show.go` (SHOW statements of a SQL query processor).

The Go source is shallowly embedded: pure rendering code becomes Lean
functions; Go slice indexing that can panic is made explicit through the
`RunResult` type (`panicked` marks an out-of-bounds access); fallible
catalog reads are oracles passed in as function arguments.  Helpers that
live outside the provided excerpt (identifier quoter, descriptor
accessor, privilege gate, sort stage) are modelled from the spec and say
so in their doc comments.
-/

/-- Outcome of running a piece of Go code: a normal value, a returned
error, or a runtime panic (out-of-bounds slice access). -/
inductive RunResult (α : Type) where
  | ok : α → RunResult α
  | err : String → RunResult α
  | panicked : RunResult α
deriving DecidableEq, Repr

/-- Sequencing of Go statements: errors and panics abort the rest. -/
def RunResult.bind {α β : Type} : RunResult α → (α → RunResult β) → RunResult β
  | .ok a, f => f a
  | .err e, _ => .err e
  | .panicked, _ => .panicked

/-- Run a fallible body over each element of a list, collecting results
(the shape of a Go for-loop whose body may return an error or panic). -/
def runList {α β : Type} (f : α → RunResult β) : List α → RunResult (List β)
  | [] => .ok []
  | a :: rest =>
    (f a).bind fun b => (runList f rest).bind fun bs => .ok (b :: bs)

/-- One interleave ancestor of an index descriptor: the id of the parent
table and the number of key columns shared with it
(`sqlbase.InterleaveDescriptor_Ancestor`). -/
structure InterleaveAncestor where
  tableID : Nat
  sharedPrefixLen : Nat
deriving DecidableEq, Repr

/-- Index descriptor (`sqlbase.IndexDescriptor`): name, ordered key
column names with per-column ids and directions, storing columns,
uniqueness flag and interleave ancestors.  Directions are kept as the
strings their Go `String()` method renders. -/
structure IndexDescriptor where
  name : String
  columnNames : List String
  columnIDs : List Nat
  columnDirections : List String
  storeColumnNames : List String
  unique : Bool
  interleaveAncestors : List InterleaveAncestor
deriving DecidableEq, Repr

/-- Column descriptor (`sqlbase.ColumnDescriptor`): name, rendered SQL
type, nullability, optional default expression, unique id, and the
hidden/inactive flag that removes it from `VisibleColumns`. -/
structure ColumnDescriptor where
  name : String
  typ : String
  nullable : Bool
  defaultExpr : Option String
  id : Nat
  hidden : Bool
deriving DecidableEq, Repr

/-- Column family descriptor (`sqlbase.ColumnFamilyDescriptor`). -/
structure FamilyDescriptor where
  name : String
  columnIDs : List Nat
  columnNames : List String
deriving DecidableEq, Repr

/-- Check constraint of a table descriptor. -/
structure CheckConstraint where
  name : String
  expr : String
deriving DecidableEq, Repr

/-- Table descriptor (`sqlbase.TableDescriptor`): ordered columns, a
primary index, secondary indexes, families, checks, and the
physical-table flag backing `IsPhysicalTable`. -/
structure TableDescriptor where
  name : String
  columns : List ColumnDescriptor
  primaryIndex : IndexDescriptor
  indexes : List IndexDescriptor
  families : List FamilyDescriptor
  checks : List CheckConstraint
  isPhysical : Bool
deriving DecidableEq, Repr

/-- Modelled from the spec: a column may be descriptor-present but not
user-visible during a schema change; `desc.VisibleColumns()` returns the
columns whose hidden flag is unset, in declaration order. -/
def visibleColumns (desc : TableDescriptor) : List ColumnDescriptor :=
  desc.columns.filter (fun col => !col.hidden)

/-- Modelled from the spec: the Identifier Quoter
(`quoteNames` / `parser.AsString` over a `NameList`) renders raw names
as a comma-joined, quoted identifier list.  Pure function, no IO. -/
def quoteNames (names : List String) : String :=
  String.intercalate ", " (names.map (fun n => "\"" ++ n ++ "\""))

/-- The sum of the shared-prefix lengths of all interleave ancestors of
an index (the `sharedPrefixLen` accumulation loop of
`showCreateInterleave`). -/
def sumSharedPrefixLen (idx : IndexDescriptor) : Nat :=
  (idx.interleaveAncestors.map (fun a => a.sharedPrefixLen)).sum

/-- Embedding of `planner.showCreateInterleave` (show.go:201-217).  The
`lookup` oracle stands for `sqlbase.GetTableDescFromID` against the
transaction; `none` is its error return.  The Go code slices
`idx.ColumnNames[:sharedPrefixLen]` without a bounds check, so a sum
larger than the number of key columns is a panic. -/
def showCreateInterleave (lookup : Nat → Option TableDescriptor)
    (idx : IndexDescriptor) : RunResult String :=
  match idx.interleaveAncestors.getLast? with
  | none => .ok ""
  | some lastAncestor =>
    match lookup lastAncestor.tableID with
    | none => .err ("descriptor not found " ++ toString lastAncestor.tableID)
    | some parentTable =>
      let n := sumSharedPrefixLen idx
      if n ≤ idx.columnNames.length then
        .ok (" INTERLEAVE IN PARENT " ++ parentTable.name ++ " (" ++
          quoteNames (idx.columnNames.take n) ++ ")")
      else .panicked

/-- A concrete parent table used by witnesses for the interleave claims. -/
def exParentTable : TableDescriptor :=
  { name := "parent"
    columns := []
    primaryIndex :=
      { name := "primary", columnNames := ["a"], columnIDs := [1],
        columnDirections := ["ASC"], storeColumnNames := [],
        unique := true, interleaveAncestors := [] }
    indexes := []
    families := []
    checks := []
    isPhysical := true }

/-- A descriptor lookup oracle that knows only `exParentTable` at id 7. -/
def exLookup : Nat → Option TableDescriptor :=
  fun i => if i = 7 then some exParentTable else none

/-- A two-key-column index interleaved (via two ancestors with
shared-prefix lengths 1 and 1) below table id 7. -/
def exInterleavedIndex : IndexDescriptor :=
  { name := "i1", columnNames := ["x", "y"], columnIDs := [2, 3],
    columnDirections := ["ASC", "ASC"], storeColumnNames := [],
    unique := false,
    interleaveAncestors := [⟨5, 1⟩, ⟨7, 1⟩] }

/-- A one-key-column index whose two ancestors each satisfy the
per-ancestor invariant (shared-prefix length 1 ≤ 1 key column) while the
sum of the shared-prefix lengths (2) exceeds the key-column count. -/
def exOverflowIndex : IndexDescriptor :=
  { name := "i2", columnNames := ["x"], columnIDs := [2],
    columnDirections := ["ASC"], storeColumnNames := [],
    unique := false,
    interleaveAncestors := [⟨5, 1⟩, ⟨7, 1⟩] }

/-- C4: the INTERLEAVE IN PARENT clause is omitted entirely when the
index has no interleave ancestors; otherwise it names the last-in-list
ancestor table and lists exactly the first N key columns of the index,
where N is the sum of the shared-prefix lengths of all ancestors. -/
theorem interleave_clause_correct (lookup : Nat → Option TableDescriptor)
    (idx : IndexDescriptor) :
    (idx.interleaveAncestors = [] → showCreateInterleave lookup idx = .ok "") ∧
    (∀ lastAncestor parentTable,
      idx.interleaveAncestors.getLast? = some lastAncestor →
      lookup lastAncestor.tableID = some parentTable →
      sumSharedPrefixLen idx ≤ idx.columnNames.length →
      showCreateInterleave lookup idx =
        .ok (" INTERLEAVE IN PARENT " ++ parentTable.name ++ " (" ++
          quoteNames (idx.columnNames.take (sumSharedPrefixLen idx)) ++ ")")) := by
  constructor
  · intro h
    simp [showCreateInterleave, h]
  · intro lastAncestor parentTable hlast hlook hle
    simp [showCreateInterleave, hlast, hlook, hle]

/-- Witness for C4: evaluating the theorem on `exInterleavedIndex`
(ancestors with shared-prefix lengths 1 and 1, outermost ancestor id 7)
produces the clause naming `parent` with the first two key columns, and
an ancestor-free index produces the empty clause. -/
theorem interleave_clause_correct_witness :
    showCreateInterleave exLookup exInterleavedIndex =
      .ok " INTERLEAVE IN PARENT parent (\"x\", \"y\")" ∧
    showCreateInterleave exLookup exParentTable.primaryIndex = .ok "" := by
  constructor
  · have h := (interleave_clause_correct exLookup exInterleavedIndex).2
      ⟨7, 1⟩ exParentTable (by decide) (by decide) (by decide)
    rw [h]; rfl
  · exact (interleave_clause_correct exLookup exParentTable.primaryIndex).1 rfl

/-- One column line of the CREATE TABLE body (show.go:256-264):
quoted name, type, nullability, optional DEFAULT expression. -/
def colLine (col : ColumnDescriptor) : String :=
  quoteNames [col.name] ++ " " ++ col.typ ++
    (if col.nullable then " NULL" else " NOT NULL") ++
    (match col.defaultExpr with
     | some e => " DEFAULT " ++ e
     | none => "")

/-- The named PRIMARY KEY clause assigned to `primary` when the first
key column of the primary index matches a visible column
(show.go:267-270). -/
def pkClause (desc : TableDescriptor) : String :=
  ",\n\tCONSTRAINT " ++ quoteNames [desc.primaryIndex.name] ++
    " PRIMARY KEY (" ++ quoteNames desc.primaryIndex.columnNames ++ ")"

/-- The column loop of `ShowCreateTable` (show.go:251-272): walks the
visible columns with their position `i`, appending one line per column
to the buffer and latching the PRIMARY KEY clause into `primary` when
the table is physical and `PrimaryIndex.ColumnIDs[0]` equals the id of
the column; that indexing has no bounds check, so an empty key-column
list is a panic. -/
def renderColsAux (desc : TableDescriptor) :
    Nat → List ColumnDescriptor → String → String → RunResult (String × String)
  | _, [], buf, primary => .ok (buf, primary)
  | i, col :: rest, buf, primary =>
    let buf1 := buf ++ (if i ≠ 0 then "," else "") ++ "\n\t" ++ colLine col
    if desc.isPhysical then
      match desc.primaryIndex.columnIDs.head? with
      | none => .panicked
      | some firstID =>
        renderColsAux desc (i + 1) rest buf1
          (if firstID = col.id then pkClause desc else primary)
    else
      renderColsAux desc (i + 1) rest buf1 primary

/-- The column part of the CREATE TABLE body together with the final
value of `primary` (show.go:250-272). -/
def renderCols (desc : TableDescriptor) : RunResult (String × String) :=
  renderColsAux desc 0 (visibleColumns desc) "" ""

/-- Embedding of the `isUnique` map (show.go:334): the missing `false`
key yields the empty string in Go. -/
def isUniqueStr (b : Bool) : String :=
  if b then "UNIQUE " else ""

/-- One secondary-index clause of the CREATE TABLE body
(show.go:274-291), with the interleave text already computed. -/
def indexClause (idx : IndexDescriptor) (interleave : String) : String :=
  ",\n\t" ++ isUniqueStr idx.unique ++ "INDEX " ++ quoteNames [idx.name] ++
    " (" ++ quoteNames idx.columnNames ++ ")" ++
    (if idx.storeColumnNames.length > 0 then
      " STORING (" ++ quoteNames idx.storeColumnNames ++ ")"
    else "") ++
    interleave

/-- The still-active column names of one family (show.go:293-298):
Go walks `fam.ColumnIDs` with position `i` and reads
`fam.ColumnNames[i]` without a bounds check whenever
`FindActiveColumnByID` succeeds. -/
def familyActiveNamesAux (desc : TableDescriptor) (fam : FamilyDescriptor) :
    Nat → List Nat → RunResult (List String)
  | _, [] => .ok []
  | i, colID :: rest =>
    if desc.columns.any (fun c => c.id = colID) then
      match fam.columnNames.get? i with
      | none => .panicked
      | some nm =>
        (familyActiveNamesAux desc fam (i + 1) rest).bind fun names =>
          .ok (nm :: names)
    else
      familyActiveNamesAux desc fam (i + 1) rest

/-- One FAMILY clause of the CREATE TABLE body (show.go:292-303). -/
def familyClause (desc : TableDescriptor) (fam : FamilyDescriptor) :
    RunResult String :=
  (familyActiveNamesAux desc fam 0 fam.columnIDs).bind fun names =>
    .ok (",\n\tFAMILY " ++ quoteNames [fam.name] ++ " (" ++
      quoteNames names ++ ")")

/-- One CHECK clause of the CREATE TABLE body (show.go:305-311). -/
def checkClause (e : CheckConstraint) : String :=
  ",\n\t" ++
    (if e.name.length > 0 then "CONSTRAINT " ++ quoteNames [e.name] ++ " "
     else "") ++
    "CHECK (" ++ e.expr ++ ")"

/-- The full text built by the `ShowCreateTable` construction callback
(show.go:248-320): header, column lines, latched PRIMARY KEY clause,
secondary-index clauses, FAMILY clauses, CHECK clauses, closing brace,
and the table-level interleave clause of the primary index. -/
def showCreateTableText (lookup : Nat → Option TableDescriptor)
    (desc : TableDescriptor) (displayName : String) : RunResult String :=
  (renderCols desc).bind fun bp =>
  (runList (fun idx =>
      (showCreateInterleave lookup idx).bind fun il =>
        .ok (indexClause idx il)) desc.indexes).bind fun idxClauses =>
  (runList (fun fam => familyClause desc fam) desc.families).bind fun famClauses =>
  (showCreateInterleave lookup desc.primaryIndex).bind fun interleave =>
  .ok ("CREATE TABLE " ++ quoteNames [displayName] ++ " (" ++ bp.1 ++ bp.2 ++
    String.join idxClauses ++ String.join famClauses ++
    String.join (desc.checks.map checkClause) ++ "\n)" ++ interleave)

/-- Helper: when the primary index has a first key column id, the column
loop never errs or panics, and the final `primary` value is the PRIMARY
KEY clause exactly when the table is physical and some walked column has
that id (otherwise the incoming value survives). -/
theorem renderColsAux_spec (desc : TableDescriptor) (firstID : Nat)
    (hids : desc.primaryIndex.columnIDs.head? = some firstID) :
    ∀ (cols : List ColumnDescriptor) (i : Nat) (buf primary : String),
    ∃ b2, renderColsAux desc i cols buf primary =
      .ok (b2, if desc.isPhysical && cols.any (fun col => firstID == col.id)
               then pkClause desc else primary) := by
  intro cols
  induction cols with
  | nil =>
    intro i buf primary
    exact ⟨buf, by simp [renderColsAux]⟩
  | cons col rest ih =>
    intro i buf primary
    cases hp : desc.isPhysical with
    | false =>
      obtain ⟨b2, h⟩ := ih (i + 1)
        (buf ++ (if i ≠ 0 then "," else "") ++ "\n\t" ++ colLine col)
        primary
      refine ⟨b2, ?_⟩
      simp only [renderColsAux, hp]
      rw [h]
      simp [hp]
    | true =>
      by_cases hc : firstID = col.id
      · obtain ⟨b2, h⟩ := ih (i + 1)
          (buf ++ (if i ≠ 0 then "," else "") ++ "\n\t" ++ colLine col)
          (pkClause desc)
        refine ⟨b2, ?_⟩
        simp only [renderColsAux, hp, hids]
        rw [if_pos hc, h, ite_self]
        simp [List.any_cons, hc]
      · obtain ⟨b2, h⟩ := ih (i + 1)
          (buf ++ (if i ≠ 0 then "," else "") ++ "\n\t" ++ colLine col)
          primary
        refine ⟨b2, ?_⟩
        simp only [renderColsAux, hp, hids]
        rw [if_neg hc, h]
        simp [hp, List.any_cons, hc]

/-- Helper: for a physical table with an empty primary key-column list,
the column loop panics as soon as it walks one column. -/
theorem renderColsAux_panics (desc : TableDescriptor)
    (hp : desc.isPhysical = true)
    (hids : desc.primaryIndex.columnIDs = []) :
    ∀ (cols : List ColumnDescriptor) (i : Nat) (buf primary : String),
    cols ≠ [] → renderColsAux desc i cols buf primary = .panicked := by
  intro cols i buf primary hne
  match cols with
  | [] => exact absurd rfl hne
  | col :: rest =>
    simp [renderColsAux, hp, hids]

/-- C3: in the rendered CREATE TABLE text the `primary` component is the
named `CONSTRAINT <name> PRIMARY KEY (<quoted key columns>)` clause
exactly when the table is physical and the first key column id of the
primary index equals the id of some visible column, and on a table with
no secondary indexes, families, checks or interleave the full rendered
text is the header, the column lines, that clause, and the closing
brace. -/
theorem primary_key_clause_iff (desc : TableDescriptor) (firstID : Nat)
    (hids : desc.primaryIndex.columnIDs.head? = some firstID) :
    (renderCols desc ≠ .panicked) ∧ (∀ e, renderCols desc ≠ .err e) ∧
    (∀ bp, renderCols desc = .ok bp →
      bp.2 = if desc.isPhysical &&
               (visibleColumns desc).any (fun col => firstID == col.id)
             then pkClause desc else "") ∧
    (∀ bp lookup nm, renderCols desc = .ok bp →
      desc.indexes = [] → desc.families = [] → desc.checks = [] →
      desc.primaryIndex.interleaveAncestors = [] →
      showCreateTableText lookup desc nm =
        .ok ("CREATE TABLE " ++ quoteNames [nm] ++ " (" ++ bp.1 ++ bp.2 ++
          "\n)")) := by
  obtain ⟨b2, h⟩ :=
    renderColsAux_spec desc firstID hids (visibleColumns desc) 0 "" ""
  have hrc : renderCols desc =
      .ok (b2, if desc.isPhysical &&
                 (visibleColumns desc).any (fun col => firstID == col.id)
               then pkClause desc else "") := h
  refine ⟨(by rw [hrc]; intro hcon; cases hcon),
    (fun e => by rw [hrc]; intro hcon; cases hcon),
    fun bp hbp => ?_, fun bp lookup nm hbp h1 h2 h3 h4 => ?_⟩
  · rw [hrc] at hbp
    cases hbp
    rfl
  · have hil : showCreateInterleave lookup desc.primaryIndex = .ok "" := by
      simp [showCreateInterleave, h4]
    simp only [showCreateTableText, hbp, h1, h2, h3, hil, runList,
      RunResult.bind, List.map_nil, String.join, List.foldl_nil]
    rw [String.append_empty, String.append_empty, String.append_empty,
      String.append_empty]

/-- A table with an explicit single-column primary key on a visible
column `k`. -/
def exPkTable : TableDescriptor :=
  { name := "t"
    columns := [{ name := "k", typ := "INT", nullable := false,
                  defaultExpr := none, id := 1, hidden := false }]
    primaryIndex :=
      { name := "primary", columnNames := ["k"], columnIDs := [1],
        columnDirections := ["ASC"], storeColumnNames := [],
        unique := true, interleaveAncestors := [] }
    indexes := []
    families := []
    checks := []
    isPhysical := true }

/-- A table whose primary key is only the hidden `rowid` column: one
visible column `v` (id 2) and a primary index keyed on the hidden
column id 1. -/
def exRowidTable : TableDescriptor :=
  { name := "t"
    columns := [{ name := "v", typ := "INT", nullable := true,
                  defaultExpr := none, id := 2, hidden := false },
                { name := "rowid", typ := "INT", nullable := false,
                  defaultExpr := some "unique_rowid()", id := 1,
                  hidden := true }]
    primaryIndex :=
      { name := "primary", columnNames := ["rowid"], columnIDs := [1],
        columnDirections := ["ASC"], storeColumnNames := [],
        unique := true, interleaveAncestors := [] }
    indexes := []
    families := []
    checks := []
    isPhysical := true }

/-- Witness for C3: on the explicit-primary-key table the clause is
latched and the full text carries it; on the rowid-only table the
clause is empty. -/
theorem primary_key_clause_iff_witness :
    renderCols exPkTable = .ok ("\n\t\"k\" INT NOT NULL", pkClause exPkTable) ∧
    ("\n\t\"k\" INT NOT NULL", pkClause exPkTable).2 =
      (if exPkTable.isPhysical &&
         (visibleColumns exPkTable).any (fun col => (1 : Nat) == col.id)
       then pkClause exPkTable else "") ∧
    showCreateTableText exLookup exPkTable "t" =
      .ok ("CREATE TABLE " ++ quoteNames ["t"] ++ " (" ++
        "\n\t\"k\" INT NOT NULL" ++ pkClause exPkTable ++ "\n)") ∧
    (∀ bp, renderCols exRowidTable = .ok bp → bp.2 = "") := by
  have hpk : renderCols exPkTable =
      .ok ("\n\t\"k\" INT NOT NULL", pkClause exPkTable) := by rfl
  refine ⟨hpk, (primary_key_clause_iff exPkTable 1 rfl).2.2.1 _ hpk,
    (primary_key_clause_iff exPkTable 1 rfl).2.2.2 _ exLookup "t" hpk rfl rfl rfl rfl,
    fun bp hbp => ?_⟩
  have h := (primary_key_clause_iff exRowidTable 1 rfl).2.2.1 bp hbp
  rw [h]
  rfl

/-- A physical table with one visible column whose primary index has an
empty key-column list. -/
def exNoPkColsTable : TableDescriptor :=
  { name := "bad"
    columns := [{ name := "k", typ := "INT", nullable := false,
                  defaultExpr := none, id := 1, hidden := false }]
    primaryIndex :=
      { name := "primary", columnNames := [], columnIDs := [],
        columnDirections := [], storeColumnNames := [],
        unique := true, interleaveAncestors := [] }
    indexes := []
    families := []
    checks := []
    isPhysical := true }

/-- C9: for a physical table with at least one visible column, the
unchecked read of `PrimaryIndex.ColumnIDs[0]` makes the rendering panic
whenever the primary index has no key column, and with at least one key
column the column loop itself neither panics nor errors. -/
theorem create_table_columnids_bounds (desc : TableDescriptor)
    (lookup : Nat → Option TableDescriptor) (nm : String)
    (hp : desc.isPhysical = true) (hvis : visibleColumns desc ≠ []) :
    (desc.primaryIndex.columnIDs = [] →
      showCreateTableText lookup desc nm = .panicked) ∧
    (desc.primaryIndex.columnIDs ≠ [] →
      renderCols desc ≠ .panicked ∧ ∀ e, renderCols desc ≠ .err e) := by
  constructor
  · intro hids
    have hloop : renderCols desc = .panicked :=
      renderColsAux_panics desc hp hids (visibleColumns desc) 0 "" "" hvis
    simp [showCreateTableText, hloop, RunResult.bind]
  · intro hids
    match hh : desc.primaryIndex.columnIDs with
    | [] => exact absurd hh hids
    | firstID :: rest =>
      have hhead : desc.primaryIndex.columnIDs.head? = some firstID := by
        rw [hh]; rfl
      obtain ⟨b2, h⟩ :=
        renderColsAux_spec desc firstID hhead (visibleColumns desc) 0 "" ""
      constructor
      · unfold renderCols
        rw [h]
        intro hcon
        cases hcon
      · intro e
        unfold renderCols
        rw [h]
        intro hcon
        cases hcon

/-- Witness for C9: the physical table `exNoPkColsTable` (one visible
column, empty primary key-column list) panics, and `exPkTable` (one key
column) renders its columns without panic or error. -/
theorem create_table_columnids_bounds_witness :
    showCreateTableText exLookup exNoPkColsTable "bad" = .panicked ∧
    renderCols exPkTable ≠ .panicked := by
  refine ⟨(create_table_columnids_bounds exNoPkColsTable exLookup "bad"
    rfl (by decide)).1 rfl, ?_⟩
  exact ((create_table_columnids_bounds exPkTable exLookup "t" rfl
    (by decide)).2 (by decide)).1

/-- C10: for an index with at least one interleave ancestor (and a
resolvable parent), the slice of the key-column names at N panics
exactly when N, the sum of all shared-prefix lengths of the ancestors,
exceeds the number of key columns of the index; the per-ancestor
invariant (each shared-prefix length bounded by the key-column count)
does not prevent the panic, as `exOverflowIndex` shows. -/
theorem interleave_slice_bounds (lookup : Nat → Option TableDescriptor)
    (idx : IndexDescriptor) :
    (∀ lastAncestor parentTable,
      idx.interleaveAncestors.getLast? = some lastAncestor →
      lookup lastAncestor.tableID = some parentTable →
      (showCreateInterleave lookup idx = .panicked ↔
        idx.columnNames.length < sumSharedPrefixLen idx)) ∧
    ((∀ a ∈ exOverflowIndex.interleaveAncestors,
        a.sharedPrefixLen ≤ exOverflowIndex.columnNames.length) ∧
      showCreateInterleave exLookup exOverflowIndex = .panicked) := by
  refine ⟨?_, by decide, by decide⟩
  intro lastAncestor parentTable hlast hlook
  constructor
  · intro hp
    by_contra hn
    push_neg at hn
    simp [showCreateInterleave, hlast, hlook, hn] at hp
  · intro hlt
    have hn : ¬ sumSharedPrefixLen idx ≤ idx.columnNames.length :=
      Nat.not_le_of_lt hlt
    simp [showCreateInterleave, hlast, hlook, hn]

/-- Witness for C10: on `exOverflowIndex` the sum of the shared-prefix
lengths is 2 while the index has 1 key column, and the theorem yields
the panic. -/
theorem interleave_slice_bounds_witness :
    showCreateInterleave exLookup exOverflowIndex = .panicked ∧
    exOverflowIndex.columnNames.length < sumSharedPrefixLen exOverflowIndex := by
  refine ⟨?_, by decide⟩
  exact ((interleave_slice_bounds exLookup exOverflowIndex).1
    ⟨7, 1⟩ exParentTable (by decide) (by decide)).2 (by decide)

/-- One output row of SHOW INDEX (show.go:633-646): table name, index
name, uniqueness, per-index sequence number, column name, direction,
and the storing flag. -/
structure IndexRow where
  table : String
  idxName : String
  unique : Bool
  seq : Nat
  column : String
  direction : String
  storing : Bool
deriving DecidableEq, Repr

/-- Pass one of the SHOW INDEX loop (show.go:650-656): one row per key
column, in defined order, carrying `ColumnDirections[i]` (an unchecked
indexed access) and the running sequence counter; returns the rows and
the counter value after the pass. -/
def keyRowsAux (tn : String) (idx : IndexDescriptor) :
    Nat → Nat → List String → RunResult (List IndexRow × Nat)
  | seq, _, [] => .ok ([], seq)
  | seq, i, col :: rest =>
    match idx.columnDirections[i]? with
    | none => .panicked
    | some dir =>
      (keyRowsAux tn idx (seq + 1) (i + 1) rest).bind fun pr =>
        .ok ({ table := tn, idxName := idx.name, unique := idx.unique,
               seq := seq, column := col, direction := dir,
               storing := false } :: pr.1, pr.2)

/-- Pass two of the SHOW INDEX loop (show.go:657-663): one row per
storing column with the fixed direction sentinel, continuing the same
sequence counter. -/
def storeRowsAux (tn : String) (idx : IndexDescriptor) :
    Nat → List String → List IndexRow
  | _, [] => []
  | seq, col :: rest =>
    { table := tn, idxName := idx.name, unique := idx.unique, seq := seq,
      column := col, direction := "N/A", storing := true } ::
      storeRowsAux tn idx (seq + 1) rest

/-- Rows emitted for one index (show.go:649-663): the sequence counter
starts at 1, pass one runs, and pass two continues from where it left
off. -/
def indexRows (tn : String) (idx : IndexDescriptor) : RunResult (List IndexRow) :=
  (keyRowsAux tn idx 1 0 idx.columnNames).bind fun pr =>
    .ok (pr.1 ++ storeRowsAux tn idx pr.2 idx.storeColumnNames)

/-- The full SHOW INDEX row set (show.go:648-664): the primary index
followed by the secondary indexes in descriptor order. -/
def showIndexRows (tn : String) (desc : TableDescriptor) :
    RunResult (List IndexRow) :=
  (runList (fun idx => indexRows tn idx)
      (desc.primaryIndex :: desc.indexes)).bind fun ls =>
    .ok ls.flatten

/-- Follows the words of the spec for SHOW INDEX: pass one emits one
row per key column in its defined order with the direction of the
column, pass two emits one row per storing column with the fixed
sentinel "N/A", and both passes share one per-index sequence counter
ascending from 1. -/
def indexRowsSpec (tn : String) (idx : IndexDescriptor) : List IndexRow :=
  ((List.range idx.columnNames.length).map fun j =>
    { table := tn, idxName := idx.name, unique := idx.unique, seq := j + 1,
      column := idx.columnNames.getD j "",
      direction := idx.columnDirections.getD j "",
      storing := false }) ++
  ((List.range idx.storeColumnNames.length).map fun k =>
    { table := tn, idxName := idx.name, unique := idx.unique,
      seq := idx.columnNames.length + k + 1,
      column := idx.storeColumnNames.getD k "",
      direction := "N/A",
      storing := true })

/-- Helper: closed form of pass one, for any starting counter and
direction offset within bounds. -/
theorem keyRowsAux_ok (tn : String) (idx : IndexDescriptor) :
    ∀ (l : List String) (s i : Nat),
      i + l.length ≤ idx.columnDirections.length →
      keyRowsAux tn idx s i l =
        .ok ((List.range l.length).map (fun j =>
          { table := tn, idxName := idx.name, unique := idx.unique,
            seq := s + j, column := l.getD j "",
            direction := idx.columnDirections.getD (i + j) "",
            storing := false }), s + l.length) := by
  intro l
  induction l with
  | nil =>
    intro s i h
    simp [keyRowsAux]
  | cons col rest ih =>
    intro s i h
    have hlt : i < idx.columnDirections.length := by
      simp only [List.length_cons] at h
      omega
    have hbound : (i + 1) + rest.length ≤ idx.columnDirections.length := by
      simp only [List.length_cons] at h
      omega
    simp only [keyRowsAux, List.getElem?_eq_getElem hlt]
    rw [ih (s + 1) (i + 1) hbound]
    simp only [RunResult.bind]
    congr 1
    rw [Prod.mk.injEq]
    constructor
    · rw [List.length_cons, List.range_succ_eq_map, List.map_cons,
        List.map_map]
      congr 1
      · simp [List.getD, List.getElem?_eq_getElem hlt]
      · apply List.map_congr_left
        intro j hj
        simp [Function.comp, List.getD_cons_succ,
          (show s + (j + 1) = s + 1 + j by omega),
          (show i + (j + 1) = i + 1 + j by omega)]
    · simp only [List.length_cons]
      omega

/-- Helper: closed form of pass two, for any starting counter. -/
theorem storeRowsAux_eq (tn : String) (idx : IndexDescriptor) :
    ∀ (l : List String) (s : Nat),
      storeRowsAux tn idx s l =
        (List.range l.length).map (fun k =>
          { table := tn, idxName := idx.name, unique := idx.unique,
            seq := s + k, column := l.getD k "",
            direction := "N/A", storing := true }) := by
  intro l
  induction l with
  | nil =>
    intro s
    simp [storeRowsAux]
  | cons col rest ih =>
    intro s
    simp only [storeRowsAux, ih (s + 1), List.length_cons,
      List.range_succ_eq_map, List.map_cons, List.map_map]
    congr 1
    apply List.map_congr_left
    intro k hk
    simp [Function.comp, List.getD_cons_succ,
      (show s + (k + 1) = s + 1 + k by omega)]

/-- Helper: the per-index emission equals its spec-side description when
every key column has a direction entry. -/
theorem indexRows_eq_spec (tn : String) (idx : IndexDescriptor)
    (h : idx.columnNames.length ≤ idx.columnDirections.length) :
    indexRows tn idx = .ok (indexRowsSpec tn idx) := by
  have hk := keyRowsAux_ok tn idx idx.columnNames 1 0 (by omega)
  simp only [indexRows, hk, RunResult.bind,
    storeRowsAux_eq tn idx idx.storeColumnNames (1 + idx.columnNames.length)]
  congr 1
  simp only [indexRowsSpec]
  congr 1
  · apply List.map_congr_left
    intro j hj
    simp [(show 1 + j = j + 1 by omega)]
  · apply List.map_congr_left
    intro k hk2
    simp [(show 1 + idx.columnNames.length + k =
      idx.columnNames.length + k + 1 by omega)]

/-- C5: SHOW INDEX emits rows in two passes per index, processing the
primary index first and then each secondary index in descriptor order;
pass one emits one row per key column in defined order with the
direction of the column, pass two emits one row per storing column with
direction "N/A", and both passes share one per-index sequence counter
ascending from 1. -/
theorem show_index_two_passes (tn : String) (desc : TableDescriptor)
    (h : ∀ idx ∈ desc.primaryIndex :: desc.indexes,
      idx.columnNames.length ≤ idx.columnDirections.length) :
    showIndexRows tn desc =
      .ok (((desc.primaryIndex :: desc.indexes).map
        (fun idx => indexRowsSpec tn idx)).flatten) := by
  have hrun : ∀ (l : List IndexDescriptor),
      (∀ idx ∈ l, idx.columnNames.length ≤ idx.columnDirections.length) →
      runList (fun idx => indexRows tn idx) l =
        .ok (l.map (fun idx => indexRowsSpec tn idx)) := by
    intro l
    induction l with
    | nil =>
      intro _
      simp [runList]
    | cons a rest ih =>
      intro hl
      have ha := hl a (List.mem_cons_self a rest)
      have hrest := fun idx hm => hl idx (List.mem_cons_of_mem a hm)
      simp [runList, indexRows_eq_spec tn a ha, RunResult.bind, ih hrest]
  simp [showIndexRows, hrun (desc.primaryIndex :: desc.indexes) h,
    RunResult.bind]

/-- A table with a 2-column unique secondary index storing one extra
column, used to witness C5. -/
def exStoringTable : TableDescriptor :=
  { name := "t"
    columns := [{ name := "a", typ := "INT", nullable := false,
                  defaultExpr := none, id := 1, hidden := false },
                { name := "b", typ := "INT", nullable := false,
                  defaultExpr := none, id := 2, hidden := false },
                { name := "c", typ := "INT", nullable := false,
                  defaultExpr := none, id := 3, hidden := false }]
    primaryIndex :=
      { name := "primary", columnNames := ["a"], columnIDs := [1],
        columnDirections := ["ASC"], storeColumnNames := [],
        unique := true, interleaveAncestors := [] }
    indexes :=
      [{ name := "i", columnNames := ["a", "b"], columnIDs := [1, 2],
         columnDirections := ["ASC", "DESC"], storeColumnNames := ["c"],
         unique := true, interleaveAncestors := [] }]
    families := []
    checks := []
    isPhysical := true }

/-- Witness for C5: on `exStoringTable` the secondary index emits 3 rows
with sequence numbers 1, 2, 3, the storing row carrying direction
"N/A", after the single primary-index row. -/
theorem show_index_two_passes_witness :
    showIndexRows "t" exStoringTable =
      .ok [{ table := "t", idxName := "primary", unique := true, seq := 1,
             column := "a", direction := "ASC", storing := false },
           { table := "t", idxName := "i", unique := true, seq := 1,
             column := "a", direction := "ASC", storing := false },
           { table := "t", idxName := "i", unique := true, seq := 2,
             column := "b", direction := "DESC", storing := false },
           { table := "t", idxName := "i", unique := true, seq := 3,
             column := "c", direction := "N/A", storing := true }] := by
  rw [show_index_two_passes "t" exStoringTable (by decide)]
  rfl

/-- Byte-wise lexicographic comparison of character lists, the order
used by Go string comparison (and hence by `sort.Strings` and the
datum comparisons of the sort stage); ASCII-clean inputs make it agree
with the usual string order. -/
def strListLt : List Char → List Char → Bool
  | [], [] => false
  | [], _ :: _ => true
  | _ :: _, [] => false
  | a :: as, b :: bs =>
    if a.toNat < b.toNat then true
    else if b.toNat < a.toNat then false
    else strListLt as bs

/-- Go string comparison `a < b`. -/
def strLt (a b : String) : Bool :=
  strListLt a.data b.data

/-- Go string comparison `a <= b`. -/
def strLe (a b : String) : Bool :=
  !strLt b a

theorem strListLt_cons (a b : Char) (as bs : List Char) :
    strListLt (a :: as) (b :: bs) =
      if a.toNat < b.toNat then true
      else if b.toNat < a.toNat then false
      else strListLt as bs := rfl

theorem strListLt_trans (a : List Char) : ∀ b c,
    strListLt a b = true → strListLt b c = true → strListLt a c = true := by
  induction a with
  | nil =>
    intro b c hab hbc
    cases b with
    | nil => exact hbc
    | cons bh bt =>
      cases c with
      | nil => exact Bool.noConfusion hbc
      | cons ch ct => rfl
  | cons ah as2 ih =>
    intro b c hab hbc
    cases b with
    | nil => exact Bool.noConfusion hab
    | cons bh bt =>
      cases c with
      | nil => exact Bool.noConfusion hbc
      | cons ch ct =>
        rw [strListLt_cons] at hab hbc ⊢
        by_cases h1 : ah.toNat < bh.toNat
        · by_cases h2 : bh.toNat < ch.toNat
          · rw [if_pos (show ah.toNat < ch.toNat by omega)]
          · rw [if_neg h2] at hbc
            by_cases h3 : ch.toNat < bh.toNat
            · rw [if_pos h3] at hbc
              exact Bool.noConfusion hbc
            · rw [if_pos (show ah.toNat < ch.toNat by omega)]
        · by_cases h4 : bh.toNat < ah.toNat
          · rw [if_neg h1, if_pos h4] at hab
            exact Bool.noConfusion hab
          · rw [if_neg h1, if_neg h4] at hab
            by_cases h2 : bh.toNat < ch.toNat
            · rw [if_pos (show ah.toNat < ch.toNat by omega)]
            · by_cases h3 : ch.toNat < bh.toNat
              · rw [if_neg h2, if_pos h3] at hbc
                exact Bool.noConfusion hbc
              · rw [if_neg h2, if_neg h3] at hbc
                rw [if_neg (show ¬ ah.toNat < ch.toNat by omega),
                  if_neg (show ¬ ch.toNat < ah.toNat by omega)]
                exact ih bt ct hab hbc

theorem strListLt_asymm (a : List Char) : ∀ b,
    strListLt a b = true → strListLt b a = false := by
  induction a with
  | nil =>
    intro b hab
    cases b with
    | nil => rfl
    | cons bh bt => rfl
  | cons ah as2 ih =>
    intro b hab
    cases b with
    | nil => exact Bool.noConfusion hab
    | cons bh bt =>
      rw [strListLt_cons] at hab ⊢
      by_cases h1 : ah.toNat < bh.toNat
      · rw [if_neg (show ¬ bh.toNat < ah.toNat by omega), if_pos h1]
      · by_cases h2 : bh.toNat < ah.toNat
        · rw [if_neg h1, if_pos h2] at hab
          exact Bool.noConfusion hab
        · rw [if_neg h1, if_neg h2] at hab
          rw [if_neg h2, if_neg h1]
          exact ih bt hab

theorem strListLt_conn (a : List Char) : ∀ b,
    strListLt a b = false → strListLt b a = false → a = b := by
  induction a with
  | nil =>
    intro b hab hba
    cases b with
    | nil => rfl
    | cons bh bt => exact Bool.noConfusion hab
  | cons ah as2 ih =>
    intro b hab hba
    cases b with
    | nil => exact Bool.noConfusion hba
    | cons bh bt =>
      rw [strListLt_cons] at hab hba
      by_cases h1 : ah.toNat < bh.toNat
      · rw [if_pos h1] at hab
        exact Bool.noConfusion hab
      · by_cases h2 : bh.toNat < ah.toNat
        · rw [if_pos h2] at hba
          exact Bool.noConfusion hba
        · rw [if_neg h1, if_neg h2] at hab hba
          have he : ah = bh := by
            have hn : ah.toNat = bh.toNat := by omega
            apply Char.eq_of_val_eq
            exact UInt32.toNat.inj hn
          rw [he, ih bt hab hba]

theorem strLt_trans (a b c : String) (hab : strLt a b = true)
    (hbc : strLt b c = true) : strLt a c = true :=
  strListLt_trans a.data b.data c.data hab hbc

theorem strLt_conn (a b : String) (hab : strLt a b = false)
    (hba : strLt b a = false) : a = b := by
  cases a with
  | mk da =>
    cases b with
    | mk db =>
      rw [strListLt_conn da db hab hba]

theorem strLe_trans (a b c : String) (hab : strLe a b = true)
    (hbc : strLe b c = true) : strLe a c = true := by
  simp only [strLe, Bool.not_eq_true'] at hab hbc ⊢
  by_cases hcb : strLt c b = true
  · rw [hcb] at hbc
    cases hbc
  · have hcb2 : strLt c b = false := by
      cases h : strLt c b
      · rfl
      · exact absurd h hcb
    by_cases hbc2 : strLt b c = true
    · cases h2 : strLt c a
      · rfl
      · have := strLt_trans b c a hbc2 h2
        rw [this] at hab
        cases hab
    · have hbc3 : strLt b c = false := by
        cases h : strLt b c
        · rfl
        · exact absurd h hbc2
      have heq : b = c := strLt_conn b c hbc3 hcb2
      rw [← heq]
      exact hab

theorem strLe_total (a b : String) : strLe a b = true ∨ strLe b a = true := by
  simp only [strLe, Bool.not_eq_true']
  cases h : strLt b a
  · exact Or.inl rfl
  · exact Or.inr (strListLt_asymm b.data a.data h)

/-- The ordering of `sort.Strings` as a proposition. -/
def strLeP (a b : String) : Prop :=
  strLe a b = true

instance : DecidableRel strLeP := fun a b => by
  unfold strLeP
  infer_instance

instance : IsTotal String strLeP := ⟨strLe_total⟩

instance : IsTrans String strLeP := ⟨strLe_trans⟩

/-- ASCII uppercase of one character, the fragment of `strings.ToUpper`
exercised by variable names. -/
def charUpper (c : Char) : Char :=
  if 97 ≤ c.toNat && c.toNat ≤ 122 then Char.ofNat (c.toNat - 32) else c

/-- Modelled from the spec: `strings.ToUpper` on ASCII variable names
(the registry keys contain no lower-case non-ASCII characters). -/
def strUpper (s : String) : String :=
  String.mk (s.data.map charUpper)

/-- One SHOW GRANTS output row (show.go:453-457): object name (database
or table), grantee, privilege kind. -/
structure GrantRow where
  object : String
  grantee : String
  privilege : String
deriving DecidableEq, Repr

/-- Modelled from the spec: the Sort Stage ordering attached by
`ShowGrants` (show.go:583-592) sorts ascending by column 0 (object
name), then column 1 (grantee), then column 2 (privilege kind). -/
def grantLe (a b : GrantRow) : Prop :=
  strLt a.object b.object = true ∨ (a.object = b.object ∧
    (strLt a.grantee b.grantee = true ∨ (a.grantee = b.grantee ∧
      strLe a.privilege b.privilege = true)))

instance : DecidableRel grantLe := fun a b => by
  unfold grantLe
  infer_instance

theorem strLt_tri (a b : String) :
    strLt a b = true ∨ a = b ∨ strLt b a = true := by
  cases h1 : strLt a b
  · cases h2 : strLt b a
    · exact Or.inr (Or.inl (strLt_conn a b h1 h2))
    · exact Or.inr (Or.inr rfl)
  · exact Or.inl rfl

theorem grantLe_total (a b : GrantRow) : grantLe a b ∨ grantLe b a := by
  unfold grantLe
  rcases strLt_tri a.object b.object with h | h | h
  · exact Or.inl (Or.inl h)
  · rcases strLt_tri a.grantee b.grantee with h2 | h2 | h2
    · exact Or.inl (Or.inr ⟨h, Or.inl h2⟩)
    · rcases strLe_total a.privilege b.privilege with h3 | h3
      · exact Or.inl (Or.inr ⟨h, Or.inr ⟨h2, h3⟩⟩)
      · exact Or.inr (Or.inr ⟨h.symm, Or.inr ⟨h2.symm, h3⟩⟩)
    · exact Or.inr (Or.inr ⟨h.symm, Or.inl h2⟩)
  · exact Or.inr (Or.inl h)

theorem grantLe_trans (a b c : GrantRow) (hab : grantLe a b)
    (hbc : grantLe b c) : grantLe a c := by
  unfold grantLe at *
  rcases hab with h1 | ⟨e1, h1⟩
  · rcases hbc with h2 | ⟨e2, h2⟩
    · exact Or.inl (strLt_trans _ _ _ h1 h2)
    · exact Or.inl (e2 ▸ h1)
  · rcases hbc with h2 | ⟨e2, h2⟩
    · exact Or.inl (e1 ▸ h2)
    · refine Or.inr ⟨e1.trans e2, ?_⟩
      rcases h1 with g1 | ⟨f1, g1⟩
      · rcases h2 with g2 | ⟨f2, g2⟩
        · exact Or.inl (strLt_trans _ _ _ g1 g2)
        · exact Or.inl (f2 ▸ g1)
      · rcases h2 with g2 | ⟨f2, g2⟩
        · exact Or.inl (f1 ▸ g2)
        · exact Or.inr ⟨f1.trans f2, strLe_trans _ _ _ g1 g2⟩

instance : IsTotal GrantRow grantLe := ⟨grantLe_total⟩

instance : IsTrans GrantRow grantLe := ⟨grantLe_trans⟩

/-- Modelled from the spec: the Sort Stage materializes the accumulated
rows in the declared multi-column ascending order. -/
def sortStage (rows : List GrantRow) : List GrantRow :=
  rows.insertionSort grantLe

/-- The SHOW GRANTS row set (show.go:463-594): the rows of the
database-level source followed by the rows of the table-level source,
passed through the Sort Stage.  The two argument lists are the results
of the `schema_privileges` and `table_privileges` catalog queries. -/
def showGrantsRows (dbRows tableRows : List GrantRow) : List GrantRow :=
  sortStage (dbRows ++ tableRows)

/-- C6: SHOW GRANTS concatenates the database-level and table-level
rows into one row set and returns it sorted ascending by (object name,
grantee, privilege kind); on the three grants of the spec example the
order is alice/INSERT, alice/SELECT, bob/SELECT. -/
theorem show_grants_sorted (dbRows tableRows : List GrantRow) :
    List.Sorted grantLe (showGrantsRows dbRows tableRows) ∧
    (showGrantsRows dbRows tableRows).Perm (dbRows ++ tableRows) ∧
    showGrantsRows []
        [{ object := "t", grantee := "alice", privilege := "SELECT" },
         { object := "t", grantee := "bob", privilege := "SELECT" },
         { object := "t", grantee := "alice", privilege := "INSERT" }] =
      [{ object := "t", grantee := "alice", privilege := "INSERT" },
       { object := "t", grantee := "alice", privilege := "SELECT" },
       { object := "t", grantee := "bob", privilege := "SELECT" }] := by
  refine ⟨List.sorted_insertionSort grantLe (dbRows ++ tableRows),
    List.perm_insertionSort grantLe (dbRows ++ tableRows), ?_⟩
  decide

/-- Helper: a successful association-list lookup means the key is among
the mapped-out keys. -/
theorem lookup_mem_keys {β : Type} (a : String) (l : List (String × β))
    (b : β) (h : List.lookup a l = some b) : a ∈ l.map Prod.fst := by
  induction l with
  | nil => cases h
  | cons p rest ih =>
    by_cases he : a == p.1
    · simp only [List.map_cons, List.mem_cons]
      exact Or.inl (beq_iff_eq.mp he)
    · simp only [List.lookup, he] at h
      exact List.mem_cons_of_mem _ (ih h)

/-- Session and transaction state read by the session-variable
accessors (show.go:31-40).  `synVal` carries the rendered
`parser.Syntax` value and `location` the rendered time zone. -/
structure PlannerState where
  database : String
  defaultIsolationLevel : String
  synVal : String
  location : String
  txnIsolation : String
  txnPriority : String
  searchPath : List String

/-- The static registry `varGen` (show.go:31-40): uppercase variable
name to zero-argument accessor over the session state. -/
def varGen : List (String × (PlannerState → String)) :=
  [("DATABASE", fun p => p.database),
   ("DEFAULT_TRANSACTION_ISOLATION", fun p => p.defaultIsolationLevel),
   ("SYNTAX", fun p => p.synVal),
   ("TIME ZONE", fun p => p.location),
   ("TRANSACTION ISOLATION LEVEL", fun p => p.txnIsolation),
   ("TRANSACTION PRIORITY", fun p => p.txnPriority),
   ("MAX_INDEX_KEYS", fun _ => "32"),
   ("SEARCH_PATH", fun p => String.intercalate ", " p.searchPath)]

/-- `varNames` (show.go:41-48): the registry keys sorted ascending by
`sort.Strings`. -/
def varNames : List String :=
  List.insertionSort strLeP (varGen.map Prod.fst)

/-- Go map indexing `varGen[name]` as an association-list lookup (the
keys are distinct). -/
def lookupVar (name : String) : Option (PlannerState → String) :=
  varGen.lookup name

/-- Plan building for `SHOW <name>` / `SHOW ALL` (show.go:59-80): the
declared column shape, or the build-time unknown-variable error. -/
def showBuild (rawName : String) : Except String (List (String × String)) :=
  let name := strUpper rawName
  if name = "ALL" then
    .ok [("Variable", "STRING"), ("Value", "STRING")]
  else
    match lookupVar name with
    | none => .error ("unknown variable: \"" ++ name ++ "\"")
    | some _ => .ok [(name, "STRING")]

/-- Rows produced by the SHOW ALL constructor (show.go:85-95): one
(name, value) row per registry entry, walked in `varNames` order. -/
def showAllRows (p : PlannerState) : List (String × String) :=
  varNames.filterMap (fun vName =>
    (lookupVar vName).map (fun gen => (vName, gen p)))

/-- Rows produced by the SHOW <name> constructor (show.go:96-105): one
single-column row holding the value of the accessor. -/
def showOneRows (p : PlannerState) (name : String) : List (List String) :=
  match lookupVar name with
  | some gen => [[gen p]]
  | none => []

/-- C8: SHOW ALL returns two columns and exactly one row per registered
variable, rows sorted ascending by variable name, and SHOW <name>
returns one column named after the variable and exactly one row whose
value is the value SHOW ALL shows for it. -/
theorem show_variables_correct :
    (∀ p : PlannerState, (showAllRows p).map Prod.fst = varNames) ∧
    List.Sorted strLeP varNames ∧
    varNames.Nodup ∧
    varNames.length = varGen.length ∧
    showBuild "ALL" = .ok [("Variable", "STRING"), ("Value", "STRING")] ∧
    (∀ (p : PlannerState) (rawName : String) gen,
      lookupVar (strUpper rawName) = some gen →
      showBuild rawName = .ok [(strUpper rawName, "STRING")] ∧
      showOneRows p (strUpper rawName) = [[gen p]] ∧
      (strUpper rawName, gen p) ∈ showAllRows p) := by
  refine ⟨fun p => rfl, by decide, by decide, by decide, rfl,
    fun p rawName gen hlook => ?_⟩
  have hne : strUpper rawName ≠ "ALL" := by
    intro hcon
    rw [hcon] at hlook
    cases hlook
  refine ⟨?_, ?_, ?_⟩
  · simp only [showBuild, if_neg hne, hlook]
  · simp only [showOneRows, hlook]
  · have hmem : strUpper rawName ∈ varNames := by
      have hkeys : strUpper rawName ∈ varGen.map Prod.fst :=
        lookup_mem_keys (strUpper rawName) varGen gen hlook
      exact ((List.perm_insertionSort strLeP
        (varGen.map Prod.fst)).mem_iff).2 hkeys
    refine List.mem_filterMap.2 ⟨strUpper rawName, hmem, ?_⟩
    rw [hlook]
    rfl

/-- A concrete session state for the variable-reflection witnesses. -/
def exPlanner : PlannerState :=
  { database := "mydb", defaultIsolationLevel := "SERIALIZABLE",
    synVal := "Traditional", location := "UTC",
    txnIsolation := "SERIALIZABLE", txnPriority := "NORMAL",
    searchPath := ["pg_catalog"] }

/-- Witness for C8: the `database` variable (looked up uppercased as
DATABASE) builds a one-column plan and returns the single row with the
session database, which is also the value SHOW ALL carries for it. -/
theorem show_variables_correct_witness :
    showBuild "database" = .ok [("DATABASE", "STRING")] ∧
    showOneRows exPlanner "DATABASE" = [["mydb"]] ∧
    ("DATABASE", "mydb") ∈ showAllRows exPlanner := by
  have h := show_variables_correct.2.2.2.2.2 exPlanner "database"
    (fun p => p.database) rfl
  exact ⟨h.1, h.2.1, h.2.2⟩

/-- Statement-level error taxonomy surfaced by the SHOW statements
(sqlbase.NewUndefinedDatabaseError, sqlbase.NewUndefinedTableError, the
no-privileges fmt.Errorf of show.go:172, and opaque collaborator
failures). -/
inductive ShowError where
  | undefinedDatabase (db : String)
  | undefinedTable (tn : String)
  | noPrivilege (user : String) (tn : String)
  | queryFailed (msg : String)
deriving DecidableEq, Repr

/-- The fixed elevated principal (`security.RootUser`) used by the
existence probes. -/
def rootUser : String := "root"

/-- A resolved qualified name: database and object name. -/
def qualString (tn : String × String) : String :=
  tn.1 ++ "." ++ tn.2

/-- A view descriptor: stored query text and recorded output column
names. -/
structure ViewDescriptor where
  name : String
  viewQuery : String
  columns : List String
deriving DecidableEq, Repr

/-- The catalog and collaborator state visible to one statement, as
oracles: per-principal visibility of `information_schema` rows
(`queryRowsAsRoot` consults the root view, `queryRows`/`QueryRow` the
view of the session user), the table-privilege rows, the registered
virtual tables (`getVirtualTableDesc`), the column rows of the
`getColumns` query, and the descriptor accessor plus privilege gate
used at plan-build time (the latter two modelled from the spec because
`mustGetTableDesc`, `mustGetViewDesc` and `anyPrivilege` live outside
the excerpt). -/
structure Env where
  schemataFor : String → List String
  tablesFor : String → List (String × String)
  tablePrivileges : List (String × String × String)
  virtualTables : List (String × String)
  columnsInfo : String → String → List (List String)
  tableDescs : String × String → Option TableDescriptor
  viewDescs : String × String → Option ViewDescriptor
  hasAnyPrivilege : String → String → Bool

/-- The four declared SHOW COLUMNS result columns (show.go:122-127). -/
def showColumnsCols : List (String × String) :=
  [("Field", "STRING"), ("Type", "STRING"), ("Null", "BOOL"),
   ("Default", "STRING")]

/-- The deferred constructor of SHOW COLUMNS (show.go:132-195): the
database existence probe as root (`checkSchema`), the table existence
probe as root (`checkTable`), then — unless the target is a virtual
table — the per-user privilege probe (`checkTablePrivilege`), and
finally the `getColumns` query mapped 1:1 into rows. -/
def showColumnsExec (env : Env) (user : String) (tn : String × String) :
    Except ShowError (List (List String)) :=
  if tn.1 ∈ env.schemataFor rootUser then
    if tn ∈ env.tablesFor rootUser then
      if tn ∈ env.virtualTables then
        .ok (env.columnsInfo tn.1 tn.2)
      else if (tn.1, tn.2, user) ∈ env.tablePrivileges then
        .ok (env.columnsInfo tn.1 tn.2)
      else
        .error (.noPrivilege user (qualString tn))
    else
      .error (.undefinedTable (qualString tn))
  else
    .error (.undefinedDatabase tn.1)

/-- C7: SHOW COLUMNS checks the target database against the root
(elevated) catalog view and reports a missing database as
UndefinedDatabase naming the database; then checks the table and
reports UndefinedTable naming the qualified name; then requires at
least one privilege for the session user, except that the privilege
check is skipped entirely for virtual system objects. -/
theorem show_columns_checks (env : Env) (user : String)
    (tn : String × String) :
    (tn.1 ∉ env.schemataFor rootUser →
      showColumnsExec env user tn = .error (.undefinedDatabase tn.1)) ∧
    (tn.1 ∈ env.schemataFor rootUser → tn ∉ env.tablesFor rootUser →
      showColumnsExec env user tn = .error (.undefinedTable (qualString tn))) ∧
    (tn.1 ∈ env.schemataFor rootUser → tn ∈ env.tablesFor rootUser →
      tn ∈ env.virtualTables →
      showColumnsExec env user tn = .ok (env.columnsInfo tn.1 tn.2)) ∧
    (tn.1 ∈ env.schemataFor rootUser → tn ∈ env.tablesFor rootUser →
      tn ∉ env.virtualTables → (tn.1, tn.2, user) ∉ env.tablePrivileges →
      showColumnsExec env user tn = .error (.noPrivilege user (qualString tn))) ∧
    (tn.1 ∈ env.schemataFor rootUser → tn ∈ env.tablesFor rootUser →
      tn ∉ env.virtualTables → (tn.1, tn.2, user) ∈ env.tablePrivileges →
      showColumnsExec env user tn = .ok (env.columnsInfo tn.1 tn.2)) := by
  refine ⟨fun h1 => ?_, fun h1 h2 => ?_, fun h1 h2 h3 => ?_,
    fun h1 h2 h3 h4 => ?_, fun h1 h2 h3 h4 => ?_⟩
  · unfold showColumnsExec
    rw [if_neg h1]
  · unfold showColumnsExec
    rw [if_pos h1, if_neg h2]
  · unfold showColumnsExec
    rw [if_pos h1, if_pos h2, if_pos h3]
  · unfold showColumnsExec
    rw [if_pos h1, if_pos h2, if_neg h3, if_neg h4]
  · unfold showColumnsExec
    rw [if_pos h1, if_pos h2, if_neg h3, if_pos h4]

/-- A concrete catalog for the SHOW COLUMNS witnesses: database `db`
with a physical table `t` (alice holds a privilege) and a virtual
table `vt`. -/
def exEnv : Env :=
  { schemataFor := fun u => if u = "root" then ["db"] else []
    tablesFor := fun u => if u = "root" then [("db", "t"), ("db", "vt")] else []
    tablePrivileges := [("db", "t", "alice")]
    virtualTables := [("db", "vt")]
    columnsInfo := fun d t =>
      if d = "db" ∧ t = "t" then [["a", "INT", "false", ""]] else []
    tableDescs := fun _ => none
    viewDescs := fun _ => none
    hasAnyPrivilege := fun _ _ => false }

/-- Witness for C7: on the concrete catalog, a missing database yields
UndefinedDatabase naming it, a missing table yields UndefinedTable
naming the qualified name, a privilege-less user is rejected on the
physical table but served on the virtual table, and a privileged user
gets the column rows. -/
theorem show_columns_checks_witness :
    showColumnsExec exEnv "alice" ("missingdb", "t") =
      .error (.undefinedDatabase "missingdb") ∧
    showColumnsExec exEnv "alice" ("db", "missing") =
      .error (.undefinedTable "db.missing") ∧
    showColumnsExec exEnv "bob" ("db", "t") =
      .error (.noPrivilege "bob" "db.t") ∧
    showColumnsExec exEnv "bob" ("db", "vt") = .ok [] ∧
    showColumnsExec exEnv "alice" ("db", "t") =
      .ok [["a", "INT", "false", ""]] := by
  refine ⟨(show_columns_checks exEnv "alice" ("missingdb", "t")).1 (by decide),
    (show_columns_checks exEnv "alice" ("db", "missing")).2.1
      (by decide) (by decide),
    (show_columns_checks exEnv "bob" ("db", "t")).2.2.2.1
      (by decide) (by decide) (by decide) (by decide),
    ?_, ?_⟩
  · have h := (show_columns_checks exEnv "bob" ("db", "vt")).2.2.1
      (by decide) (by decide) (by decide)
    rw [h]
    rfl
  · have h := (show_columns_checks exEnv "alice" ("db", "t")).2.2.2.2
      (by decide) (by decide) (by decide) (by decide)
    rw [h]
    rfl

/-- Modelled from the spec: the Descriptor Accessor.  `mustGetTableDesc`
(called at plan-build time, show.go:228, 608, 680; its body is outside
the excerpt) resolves the qualified name and reports a missing object
as an undefined-table error naming the qualified name. -/
def mustGetTableDesc (env : Env) (tn : String × String) :
    Except ShowError TableDescriptor :=
  match env.tableDescs tn with
  | some d => .ok d
  | none => .error (.undefinedTable (qualString tn))

/-- Modelled from the spec: the Descriptor Accessor for views
(`mustGetViewDesc`, show.go:354). -/
def mustGetViewDesc (env : Env) (tn : String × String) :
    Except ShowError ViewDescriptor :=
  match env.viewDescs tn with
  | some d => .ok d
  | none => .error (.undefinedTable (qualString tn))

/-- Modelled from the spec: the Privilege Gate (`p.anyPrivilege`,
show.go:232, 358, 612, 684; its body is outside the excerpt) passes
exactly when the principal holds at least one privilege on the
descriptor. -/
def anyPrivilege (env : Env) (user : String) (objName : String) :
    Except ShowError Unit :=
  if env.hasAnyPrivilege user objName then .ok ()
  else .error (.noPrivilege user objName)

/-- Plan building of SHOW COLUMNS (show.go:116-131): only the column
shape is computed; no catalog access happens before the delayedNode is
returned. -/
def showColumnsBuild (tn : String × String) :
    Except ShowError (List (String × String)) :=
  .ok showColumnsCols

/-- Plan building of SHOW CREATE TABLE (show.go:222-244): the
descriptor resolution and the any-privilege gate both run before the
delayedNode is returned, so their errors surface at plan-build time. -/
def showCreateTableBuild (env : Env) (user : String) (tn : String × String) :
    Except ShowError (TableDescriptor × List (String × String)) :=
  match mustGetTableDesc env tn with
  | .error e => .error e
  | .ok desc =>
    match anyPrivilege env user desc.name with
    | .error e => .error e
    | .ok _ => .ok (desc, [("Table", "STRING"), ("CreateTable", "STRING")])

/-- Plan building of SHOW INDEX (show.go:602-629): same build-time
descriptor and privilege checks as SHOW CREATE TABLE. -/
def showIndexBuild (env : Env) (user : String) (tn : String × String) :
    Except ShowError (TableDescriptor × List (String × String)) :=
  match mustGetTableDesc env tn with
  | .error e => .error e
  | .ok desc =>
    match anyPrivilege env user desc.name with
    | .error e => .error e
    | .ok _ => .ok (desc,
        [("Table", "STRING"), ("Name", "STRING"), ("Unique", "BOOL"),
         ("Seq", "INT"), ("Column", "STRING"), ("Direction", "STRING"),
         ("Storing", "BOOL")])

/-- Plan building of SHOW CONSTRAINTS (show.go:674-695): same build-time
descriptor and privilege checks. -/
def showConstraintsBuild (env : Env) (user : String) (tn : String × String) :
    Except ShowError (TableDescriptor × List (String × String)) :=
  match mustGetTableDesc env tn with
  | .error e => .error e
  | .ok desc =>
    match anyPrivilege env user desc.name with
    | .error e => .error e
    | .ok _ => .ok (desc,
        [("Table", "STRING"), ("Name", "STRING"), ("Type", "STRING"),
         ("Column(s)", "STRING"), ("Details", "STRING")])

/-- Plan building of SHOW CREATE VIEW (show.go:348-369): the view
descriptor resolution and the any-privilege gate run before the
delayedNode is returned. -/
def showCreateViewBuild (env : Env) (user : String) (tn : String × String) :
    Except ShowError (ViewDescriptor × List (String × String)) :=
  match mustGetViewDesc env tn with
  | .error e => .error e
  | .ok desc =>
    match anyPrivilege env user desc.name with
    | .error e => .error e
    | .ok _ => .ok (desc, [("View", "STRING"), ("CreateView", "STRING")])

/-- Outcome of one construction callback, with explicit accounting of
the values container: whether `newContainerValuesNode` ran and whether
its rows were closed before the callback returned (on success the
container is handed to the caller, so `accClosed` is false there by
design; a leak is an error or panic outcome with the container created
and not closed). -/
structure ExecOutcome (α : Type) where
  result : RunResult α
  accCreated : Bool
  accClosed : Bool
deriving Repr

/-- Statement parsed from a stored view query: a select, or anything
else. -/
inductive ParsedStmt where
  | selectStmt (q : String)
  | otherStmt
deriving DecidableEq, Repr

/-- Oracles of the view re-planning path of `ShowCreateView`:
`parser.ParseOneTraditional` (`none` is a parse error), the column
names produced by planning the select (`none` is a planning error),
and the failure mode of `AddRow`. -/
structure ViewEnv where
  parseOne : String → Option ParsedStmt
  planSelectCols : String → Option (List String)
  addRowFails : Bool

/-- The custom-column-name comparison of `ShowCreateView`
(show.go:397-402): walks the planned columns with position `i`,
reading `desc.Columns[i]` without a bounds check. -/
def viewColsDifferAux (descCols : List String) :
    Nat → List String → RunResult Bool
  | _, [] => .ok false
  | i, c :: rest =>
    match descCols[i]? with
    | none => .panicked
    | some dn =>
      if c ≠ dn then .ok true
      else viewColsDifferAux descCols (i + 1) rest

/-- The construction callback of SHOW CREATE VIEW (show.go:370-420)
with container accounting: the container is created first
(show.go:371); the parse-error return (show.go:381), the
not-a-select return (show.go:385) and the planning-error return
(show.go:395-396) all propagate the error WITHOUT closing it; only the
AddRow failure path closes it (show.go:416). -/
def showCreateViewExec (venv : ViewEnv) (displayName : String)
    (tn : String × String) (desc : ViewDescriptor) :
    ExecOutcome (String × String) :=
  match venv.parseOne desc.viewQuery with
  | none =>
    { result := .err ("failed to parse underlying query from view " ++
        qualString tn),
      accCreated := true, accClosed := false }
  | some .otherStmt =>
    { result := .err ("failed to parse underlying query from view " ++
        qualString tn ++ " as a select"),
      accCreated := true, accClosed := false }
  | some (.selectStmt q) =>
    match venv.planSelectCols q with
    | none =>
      { result := .err "select plan failed", accCreated := true,
        accClosed := false }
    | some planCols =>
      match viewColsDifferAux desc.columns 0 planCols with
      | .panicked =>
        { result := .panicked, accCreated := true, accClosed := false }
      | .err e =>
        { result := .err e, accCreated := true, accClosed := false }
      | .ok custom =>
        let text := "CREATE VIEW " ++ quoteNames [displayName] ++ " " ++
          (if custom then
            "(" ++ String.intercalate ", " desc.columns ++ ") "
          else "") ++ "AS " ++ desc.viewQuery
        if venv.addRowFails then
          { result := .err "AddRow failed", accCreated := true,
            accClosed := true }
        else
          { result := .ok (displayName, text), accCreated := true,
            accClosed := false }

/-- One entry of the table's constraint-info mapping
(`desc.GetConstraintInfo`). -/
structure ConstraintEntry where
  name : String
  kind : String
  columns : Option (List String)
  details : String
  unvalidated : Bool
deriving DecidableEq, Repr

/-- One SHOW CONSTRAINTS row (show.go:707-726): NULL cells are `none`. -/
structure ConstraintRow where
  table : String
  name : String
  kind : String
  columns : Option String
  details : Option String
deriving DecidableEq, Repr

/-- Row mapping of one constraint entry (show.go:707-726): the kind is
suffixed with " (UNVALIDATED)" when the flag is set, and the column
list and details become NULL when absent or empty. -/
def constraintRow (tnTable : String) (c : ConstraintEntry) : ConstraintRow :=
  { table := tnTable, name := c.name
    kind := c.kind ++ (if c.unvalidated then " (UNVALIDATED)" else "")
    columns := c.columns.map (String.intercalate ", ")
    details := if c.details = "" then none else some c.details }

/-- The construction callback of SHOW CONSTRAINTS (show.go:700-744)
with container accounting: the container is created first
(show.go:701); a `GetConstraintInfo` failure (show.go:703-705) is
propagated WITHOUT closing it; the AddRow failure path closes it
(show.go:727-729).  The sortNode wrapper applied on success
(show.go:733-743) orders the rows afterwards and does not affect the
accounting. -/
def showConstraintsExec (cinfo : Except String (List ConstraintEntry))
    (tnTable : String) (addRowFails : Bool) :
    ExecOutcome (List ConstraintRow) :=
  match cinfo with
  | .error e =>
    { result := .err e, accCreated := true, accClosed := false }
  | .ok info =>
    if addRowFails then
      { result := .err "AddRow failed", accCreated := true,
        accClosed := true }
    else
      { result := .ok (info.map (constraintRow tnTable)),
        accCreated := true, accClosed := false }

/-- A view descriptor whose stored query text does not parse. -/
def exBadView : ViewDescriptor :=
  { name := "v", viewQuery := "not a select", columns := ["a"] }

/-- A view oracle on which every parse fails. -/
def exParseFailEnv : ViewEnv :=
  { parseOne := fun _ => none, planSelectCols := fun _ => some [],
    addRowFails := false }

/-- A catalog carrying one table descriptor (`db.t`, privileged for
alice only) and one view descriptor (`db.v`). -/
def exDescEnv : Env :=
  { schemataFor := fun _ => ["db"]
    tablesFor := fun _ => [("db", "t")]
    tablePrivileges := []
    virtualTables := []
    columnsInfo := fun _ _ => []
    tableDescs := fun tn => if tn = ("db", "t") then some exPkTable else none
    viewDescs := fun tn => if tn = ("db", "v") then some exBadView else none
    hasAnyPrivilege := fun u _ => u == "alice" }

/-- Counterexample for C1: the claim says missing-table errors surface
only when the deferred callback executes, never at plan-build time; but
plan building of SHOW CREATE TABLE on the empty catalog `exEnv` (no
descriptors) already returns the undefined-table error, before any plan
is returned (show.go:228-231). -/
theorem plan_build_error_counterexample :
    showCreateTableBuild exEnv "alice" ("db", "t") =
      .error (.undefinedTable "db.t") := by
  rfl

/-- C1 amended: unknown variable names error at plan-build time; for
SHOW COLUMNS plan building never touches the catalog and all
missing-database/table/privilege errors surface in the callback; but
for SHOW CREATE TABLE, SHOW CREATE VIEW, SHOW INDEX and SHOW
CONSTRAINTS the missing-object and missing-privilege errors surface at
plan-build time, before the plan is returned; malformed stored view
text still surfaces only when the callback executes. -/
theorem deferred_error_surface_amended :
    (∀ tn : String × String, showColumnsBuild tn = .ok showColumnsCols) ∧
    (∀ rawName, strUpper rawName ≠ "ALL" →
      lookupVar (strUpper rawName) = none →
      showBuild rawName =
        .error ("unknown variable: \"" ++ strUpper rawName ++ "\"")) ∧
    (∀ env user tn, env.tableDescs tn = none →
      showCreateTableBuild env user tn =
        .error (.undefinedTable (qualString tn))) ∧
    (∀ env user tn desc, env.tableDescs tn = some desc →
      env.hasAnyPrivilege user desc.name = false →
      showCreateTableBuild env user tn =
        .error (.noPrivilege user desc.name)) ∧
    (∀ env user tn, env.tableDescs tn = none →
      showIndexBuild env user tn =
        .error (.undefinedTable (qualString tn))) ∧
    (∀ env user tn, env.tableDescs tn = none →
      showConstraintsBuild env user tn =
        .error (.undefinedTable (qualString tn))) ∧
    (∀ env user tn, env.viewDescs tn = none →
      showCreateViewBuild env user tn =
        .error (.undefinedTable (qualString tn))) ∧
    (∀ env user tn desc venv nm, env.viewDescs tn = some desc →
      env.hasAnyPrivilege user desc.name = true →
      showCreateViewBuild env user tn =
        .ok (desc, [("View", "STRING"), ("CreateView", "STRING")]) ∧
      (venv.parseOne desc.viewQuery = none →
        (showCreateViewExec venv nm tn desc).result =
          .err ("failed to parse underlying query from view " ++
            qualString tn))) := by
  refine ⟨fun tn => rfl, fun rawName hne hnone => ?_,
    fun env user tn h => ?_, fun env user tn desc h hp => ?_,
    fun env user tn h => ?_, fun env user tn h => ?_,
    fun env user tn h => ?_, fun env user tn desc venv nm h hp => ?_⟩
  · simp only [showBuild, if_neg hne, hnone]
  · simp only [showCreateTableBuild, mustGetTableDesc, h]
  · simp only [showCreateTableBuild, mustGetTableDesc, h, anyPrivilege,
      hp, Bool.false_eq_true, if_false]
  · simp only [showIndexBuild, mustGetTableDesc, h]
  · simp only [showConstraintsBuild, mustGetTableDesc, h]
  · simp only [showCreateViewBuild, mustGetViewDesc, h]
  · refine ⟨?_, fun hparse => ?_⟩
    · simp only [showCreateViewBuild, mustGetViewDesc, h, anyPrivilege,
        hp, if_true]
    · simp only [showCreateViewExec, hparse]

/-- Witness for the amended C1: concrete plan-build outcomes on the
catalog `exDescEnv` — SHOW COLUMNS always builds, an unknown variable
fails at build, a missing table and a missing privilege fail SHOW
CREATE TABLE at build, and SHOW CREATE VIEW builds on the
unparseable-view descriptor whose callback then fails. -/
theorem deferred_error_surface_amended_witness :
    showColumnsBuild ("db", "t") = .ok showColumnsCols ∧
    showBuild "bogus" = .error "unknown variable: \"BOGUS\"" ∧
    showCreateTableBuild exDescEnv "alice" ("db", "x") =
      .error (.undefinedTable "db.x") ∧
    showCreateTableBuild exDescEnv "bob" ("db", "t") =
      .error (.noPrivilege "bob" "t") ∧
    showCreateViewBuild exDescEnv "alice" ("db", "v") =
      .ok (exBadView, [("View", "STRING"), ("CreateView", "STRING")]) ∧
    (showCreateViewExec exParseFailEnv "v" ("db", "v") exBadView).result =
      .err "failed to parse underlying query from view db.v" := by
  have h := deferred_error_surface_amended
  refine ⟨h.1 ("db", "t"), h.2.1 "bogus" (by decide) (by rfl),
    h.2.2.1 exDescEnv "alice" ("db", "x") (by rfl),
    h.2.2.2.1 exDescEnv "bob" ("db", "t") exPkTable (by rfl) (by rfl),
    (h.2.2.2.2.2.2.2 exDescEnv "alice" ("db", "v") exBadView
      exParseFailEnv "v" (by rfl) (by rfl)).1,
    (h.2.2.2.2.2.2.2 exDescEnv "alice" ("db", "v") exBadView
      exParseFailEnv "v" (by rfl) (by rfl)).2 (by rfl)⟩

/-- C2 is a code bug: on the parse-failure path of the SHOW CREATE VIEW
callback (show.go:379-381) and on the GetConstraintInfo-failure path of
the SHOW CONSTRAINTS callback (show.go:703-705) the error is propagated
while the values container created at show.go:371 and show.go:701 is
never closed, although the surrounding code closes it on its other
failure paths (show.go:416, 727-729) and the spec requires release on
every failure path. -/
theorem accumulator_leak_on_failure :
    (showCreateViewExec exParseFailEnv "v" ("db", "v") exBadView).result =
      .err "failed to parse underlying query from view db.v" ∧
    (showCreateViewExec exParseFailEnv "v" ("db", "v") exBadView).accCreated
      = true ∧
    (showCreateViewExec exParseFailEnv "v" ("db", "v") exBadView).accClosed
      = false ∧
    (showConstraintsExec (.error "txn aborted") "t" false).result =
      .err "txn aborted" ∧
    (showConstraintsExec (.error "txn aborted") "t" false).accCreated
      = true ∧
    (showConstraintsExec (.error "txn aborted") "t" false).accClosed
      = false := by
  exact ⟨rfl, rfl, rfl, rfl, rfl, rfl⟩
